import Mathlib

/-!
Shallow embedding of the `ReviewXBlock` click handler from
`review/static/js/src/review.js`.

The handler's per-button DOM state (classes, attributes, jQuery `data`,
running intervals) becomes an explicit record `DomState`, and the three
kinds of browser events that touch it — a click on `.review-button`, the
100ms debounce `setTimeout` firing, and a tick of the 1000ms
height-polling `setInterval` callback — become a step function on that
record.  `setInterval` handles are modelled by a fresh-id counter
`nextTimerId` together with the list `activeTimers` of ids of intervals
currently running; `clearInterval h` removes `h` from that list (a no-op
when `h` is stale or `undefined`).
-/

namespace ReviewXBlock

/-- Environment fixed for the lifetime of the page: `window.location.hostname`,
the button's `data-iframe-src` attribute, and what the iframe element exposes
to the 404-detection branch (`innerHTML`, `contentDocument.title`) and to the
polling callback (`contentWindow.document.body.offsetHeight`). -/
structure Env where
  hostname : String
  dataIframeSrc : String
  innerHTML : String
  contentTitle : String
  offsetHeight : Nat
deriving Repr, DecidableEq

/-- Per-button ephemeral UI state held in DOM node attributes, classes and
jQuery data: the `disable-click` debounce class, the `review-button--active`
class, the sibling panel's `review-content--active` class, the
`aria-expanded` attribute (absent = `none`), the iframe's `src` and `height`
attributes (absent = `none`), the `intervalID` jQuery data slot, and the
modelled set of running interval handles plus the fresh-handle counter. -/
structure DomState where
  disableClick : Bool
  btnActive : Bool
  contentActive : Bool
  ariaExpanded : Option String
  iframeSrc : Option String
  iframeHeight : Option String
  intervalID : Option Nat
  activeTimers : List Nat
  nextTimerId : Nat
deriving Repr, DecidableEq

/-- Character-list helper: does the first list occur as a leading segment of
the second?  Used to model the JS `String.prototype.indexOf` test. -/
def leadsChars : List Char → List Char → Bool
  | [], _ => true
  | _ :: _, [] => false
  | a :: as, b :: bs => a == b && leadsChars as bs

/-- Character-list helper: does the first list occur contiguously anywhere in
the second? -/
def containsSub (needle : List Char) : List Char → Bool
  | [] => needle.isEmpty
  | b :: bs => leadsChars needle (b :: bs) || containsSub needle bs

/-- JS `hay.indexOf(needle) >= 0`, i.e. `needle` occurs as a substring of
`hay`; `hay.indexOf(needle) == -1` is its negation. -/
def strContains (hay needle : String) : Bool :=
  containsSub needle.data hay.data

/-- Lines 12–17 of the handler: `$btn.addClass('disable-click')`.  The
matching `setTimeout(..., 100)` that removes the class is modelled by the
separate `Event.debounceTimeout` event. -/
def setDebounce (s : DomState) : DomState :=
  { s with disableClick := true }

/-- Lines 21–23: lazy load of the iframe.  `$iframe.attr('src')` is compared
against the empty string with strict equality (`undefined === ''` is false),
and on success the `src` attribute is assigned from `$btn.data('iframe-src')`. -/
def lazyLoadSrc (env : Env) (s : DomState) : DomState :=
  if s.iframeSrc = some "" then { s with iframeSrc := some env.dataIframeSrc } else s

/-- Lines 31–37: if the button's class string includes
`review-button--active`, `clearInterval($btn.data('intervalID'))`; otherwise
`$btn.data('intervalID', setInterval(..., 1000))`.  Note the deactivating
branch clears the interval but leaves the stale handle in the data slot. -/
def timerStartStop (s : DomState) : DomState :=
  if s.btnActive then
    match s.intervalID with
    | some t => { s with activeTimers := s.activeTimers.filter (fun u => u != t) }
    | none => s
  else
    { s with
        intervalID := some s.nextTimerId,
        activeTimers := s.nextTimerId :: s.activeTimers,
        nextTimerId := s.nextTimerId + 1 }

/-- Lines 39–51: the speculative 404-detection branch.  It reads
`$iframe['0'].innerHTML` (JS truthiness: non-empty string) and, when that is
truthy, lowercases `contentDocument.title` and tests it for
`"page not found"` or `"404"`; every branch body is empty, so no state is
written on any path. -/
def check404 (env : Env) (s : DomState) : DomState :=
  if env.innerHTML ≠ "" then
    if strContains env.contentTitle.toLower "page not found"
        || strContains env.contentTitle.toLower "404" then
      s
    else
      s
  else
    s

/-- Lines 28–52: the whole block guarded by
`window.location.hostname.indexOf("studio") == -1`. -/
def hostGuard (env : Env) (s : DomState) : DomState :=
  if strContains env.hostname "studio" then s
  else check404 env (timerStartStop s)

/-- Line 55: `$btn.toggleClass('review-button--active')`. -/
def toggleButtonClass (s : DomState) : DomState :=
  { s with btnActive := !s.btnActive }

/-- Line 59: `$btn.attr('aria-expanded', $btn.attr('aria-expanded') === 'true'
? 'false' : 'true')`.  A missing attribute (`undefined`) is not strictly
equal to `'true'`, so it maps to `'true'`. -/
def toggleAria (s : DomState) : DomState :=
  { s with ariaExpanded := if s.ariaExpanded = some "true" then some "false" else some "true" }

/-- Line 62: `$content.toggleClass('review-content--active')`. -/
def toggleContentClass (s : DomState) : DomState :=
  { s with contentActive := !s.contentActive }

/-- The click handler body (lines 11–63): skipped entirely when the
`disable-click` class is present, otherwise the six stages run in source
order. -/
def handleClick (env : Env) (s : DomState) : DomState :=
  if s.disableClick then s
  else
    toggleContentClass (toggleAria (toggleButtonClass
      (hostGuard env (lazyLoadSrc env (setDebounce s)))))

/-- The browser events that touch the modelled state: a click on the review
button, the 100ms debounce timeout firing, and one tick of the height-polling
interval callback. -/
inductive Event
  | click
  | debounceTimeout
  | tick
deriving Repr, DecidableEq

/-- One event step.  The debounce timeout runs
`$btn.removeClass('disable-click')`; a poll tick runs the `setInterval`
callback (which fires only while an interval is alive) setting the iframe's
`height` attribute from the inner document body's `offsetHeight`. -/
def step (env : Env) (e : Event) (s : DomState) : DomState :=
  match e with
  | Event.click => handleClick env s
  | Event.debounceTimeout => { s with disableClick := false }
  | Event.tick =>
      if s.activeTimers ≠ [] then
        { s with iframeHeight := some (toString env.offsetHeight ++ "px") }
      else s

/-- Run a sequence of events in order. -/
def run (env : Env) (es : List Event) (s : DomState) : DomState :=
  es.foldl (fun t e => step env e t) s

/-- The initial DOM state described by the spec's data model: no classes set,
iframe `src` present and empty (the lazy-load marker), no interval data; the
initial `aria-expanded` attribute is left as a parameter. -/
def initState (aria0 : Option String) : DomState :=
  { disableClick := false
    btnActive := false
    contentActive := false
    ariaExpanded := aria0
    iframeSrc := some ""
    iframeHeight := none
    intervalID := none
    activeTimers := []
    nextTimerId := 0 }

/-- A concrete non-Studio LMS environment used for witnesses. -/
def envEx : Env :=
  { hostname := "learn.edx.org"
    dataIframeSrc := "https://c.org/p1"
    innerHTML := ""
    contentTitle := ""
    offsetHeight := 300 }

/-- A concrete Studio environment used for witnesses. -/
def envStudio : Env :=
  { envEx with hostname := "studio.edx.org" }

theorem check404_id (env : Env) (s : DomState) : check404 env s = s := by
  simp [check404]

theorem hostGuard_eq (env : Env) (s : DomState) :
    hostGuard env s =
      if strContains env.hostname "studio" then s else timerStartStop s := by
  simp [hostGuard, check404_id]

@[simp] theorem lazyLoadSrc_disableClick (env : Env) (s : DomState) :
    (lazyLoadSrc env s).disableClick = s.disableClick := by
  unfold lazyLoadSrc; split <;> rfl

@[simp] theorem lazyLoadSrc_btnActive (env : Env) (s : DomState) :
    (lazyLoadSrc env s).btnActive = s.btnActive := by
  unfold lazyLoadSrc; split <;> rfl

@[simp] theorem lazyLoadSrc_contentActive (env : Env) (s : DomState) :
    (lazyLoadSrc env s).contentActive = s.contentActive := by
  unfold lazyLoadSrc; split <;> rfl

@[simp] theorem lazyLoadSrc_ariaExpanded (env : Env) (s : DomState) :
    (lazyLoadSrc env s).ariaExpanded = s.ariaExpanded := by
  unfold lazyLoadSrc; split <;> rfl

@[simp] theorem lazyLoadSrc_iframeHeight (env : Env) (s : DomState) :
    (lazyLoadSrc env s).iframeHeight = s.iframeHeight := by
  unfold lazyLoadSrc; split <;> rfl

@[simp] theorem lazyLoadSrc_intervalID (env : Env) (s : DomState) :
    (lazyLoadSrc env s).intervalID = s.intervalID := by
  unfold lazyLoadSrc; split <;> rfl

@[simp] theorem lazyLoadSrc_activeTimers (env : Env) (s : DomState) :
    (lazyLoadSrc env s).activeTimers = s.activeTimers := by
  unfold lazyLoadSrc; split <;> rfl

@[simp] theorem lazyLoadSrc_nextTimerId (env : Env) (s : DomState) :
    (lazyLoadSrc env s).nextTimerId = s.nextTimerId := by
  unfold lazyLoadSrc; split <;> rfl

@[simp] theorem lazyLoadSrc_iframeSrc (env : Env) (s : DomState) :
    (lazyLoadSrc env s).iframeSrc =
      if s.iframeSrc = some "" then some env.dataIframeSrc else s.iframeSrc := by
  unfold lazyLoadSrc; split <;> simp [*]

@[simp] theorem timerStartStop_disableClick (s : DomState) :
    (timerStartStop s).disableClick = s.disableClick := by
  cases hb : s.btnActive <;> cases hi : s.intervalID <;> simp [timerStartStop, hb, hi]

@[simp] theorem timerStartStop_btnActive (s : DomState) :
    (timerStartStop s).btnActive = s.btnActive := by
  cases hb : s.btnActive <;> cases hi : s.intervalID <;> simp [timerStartStop, hb, hi]

@[simp] theorem timerStartStop_contentActive (s : DomState) :
    (timerStartStop s).contentActive = s.contentActive := by
  cases hb : s.btnActive <;> cases hi : s.intervalID <;> simp [timerStartStop, hb, hi]

@[simp] theorem timerStartStop_ariaExpanded (s : DomState) :
    (timerStartStop s).ariaExpanded = s.ariaExpanded := by
  cases hb : s.btnActive <;> cases hi : s.intervalID <;> simp [timerStartStop, hb, hi]

@[simp] theorem timerStartStop_iframeSrc (s : DomState) :
    (timerStartStop s).iframeSrc = s.iframeSrc := by
  cases hb : s.btnActive <;> cases hi : s.intervalID <;> simp [timerStartStop, hb, hi]

@[simp] theorem timerStartStop_iframeHeight (s : DomState) :
    (timerStartStop s).iframeHeight = s.iframeHeight := by
  cases hb : s.btnActive <;> cases hi : s.intervalID <;> simp [timerStartStop, hb, hi]

@[simp] theorem timerStartStop_intervalID (s : DomState) :
    (timerStartStop s).intervalID =
      if s.btnActive then s.intervalID else some s.nextTimerId := by
  cases hb : s.btnActive <;> cases hi : s.intervalID <;> simp [timerStartStop, hb, hi]

@[simp] theorem timerStartStop_nextTimerId (s : DomState) :
    (timerStartStop s).nextTimerId =
      if s.btnActive then s.nextTimerId else s.nextTimerId + 1 := by
  cases hb : s.btnActive <;> cases hi : s.intervalID <;> simp [timerStartStop, hb, hi]

@[simp] theorem timerStartStop_activeTimers (s : DomState) :
    (timerStartStop s).activeTimers =
      if s.btnActive then
        (match s.intervalID with
          | some t => s.activeTimers.filter (fun u => u != t)
          | none => s.activeTimers)
      else s.nextTimerId :: s.activeTimers := by
  cases hb : s.btnActive <;> cases hi : s.intervalID <;> simp [timerStartStop, hb, hi]

@[simp] theorem hostGuard_disableClick (env : Env) (s : DomState) :
    (hostGuard env s).disableClick = s.disableClick := by
  rw [hostGuard_eq]; split <;> simp

@[simp] theorem hostGuard_btnActive (env : Env) (s : DomState) :
    (hostGuard env s).btnActive = s.btnActive := by
  rw [hostGuard_eq]; split <;> simp

@[simp] theorem hostGuard_contentActive (env : Env) (s : DomState) :
    (hostGuard env s).contentActive = s.contentActive := by
  rw [hostGuard_eq]; split <;> simp

@[simp] theorem hostGuard_ariaExpanded (env : Env) (s : DomState) :
    (hostGuard env s).ariaExpanded = s.ariaExpanded := by
  rw [hostGuard_eq]; split <;> simp

@[simp] theorem hostGuard_iframeSrc (env : Env) (s : DomState) :
    (hostGuard env s).iframeSrc = s.iframeSrc := by
  rw [hostGuard_eq]; split <;> simp

@[simp] theorem hostGuard_iframeHeight (env : Env) (s : DomState) :
    (hostGuard env s).iframeHeight = s.iframeHeight := by
  rw [hostGuard_eq]; split <;> simp

theorem handleClick_debounced (env : Env) (s : DomState) (h : s.disableClick = true) :
    handleClick env s = s := by
  simp [handleClick, h]

theorem handleClick_disableClick (env : Env) (s : DomState) (h : s.disableClick = false) :
    (handleClick env s).disableClick = true := by
  simp [handleClick, h, toggleContentClass, toggleAria, toggleButtonClass, setDebounce]

theorem handleClick_btnActive (env : Env) (s : DomState) (h : s.disableClick = false) :
    (handleClick env s).btnActive = !s.btnActive := by
  simp [handleClick, h, toggleContentClass, toggleAria, toggleButtonClass, setDebounce]

theorem handleClick_contentActive (env : Env) (s : DomState) (h : s.disableClick = false) :
    (handleClick env s).contentActive = !s.contentActive := by
  simp [handleClick, h, toggleContentClass, toggleAria, toggleButtonClass, setDebounce]

theorem handleClick_ariaExpanded (env : Env) (s : DomState) (h : s.disableClick = false) :
    (handleClick env s).ariaExpanded =
      if s.ariaExpanded = some "true" then some "false" else some "true" := by
  simp [handleClick, h, toggleContentClass, toggleAria, toggleButtonClass, setDebounce]

theorem handleClick_iframeSrc (env : Env) (s : DomState) (h : s.disableClick = false) :
    (handleClick env s).iframeSrc =
      if s.iframeSrc = some "" then some env.dataIframeSrc else s.iframeSrc := by
  simp [handleClick, h, toggleContentClass, toggleAria, toggleButtonClass, setDebounce]

theorem handleClick_iframeHeight (env : Env) (s : DomState) (h : s.disableClick = false) :
    (handleClick env s).iframeHeight = s.iframeHeight := by
  simp [handleClick, h, toggleContentClass, toggleAria, toggleButtonClass, setDebounce]

theorem handleClick_activeTimers (env : Env) (s : DomState) (h : s.disableClick = false) :
    (handleClick env s).activeTimers =
      if strContains env.hostname "studio" then s.activeTimers
      else if s.btnActive then
        (match s.intervalID with
          | some t => s.activeTimers.filter (fun u => u != t)
          | none => s.activeTimers)
      else s.nextTimerId :: s.activeTimers := by
  cases hst : strContains env.hostname "studio" <;>
    simp [handleClick, h, hst, toggleContentClass, toggleAria, toggleButtonClass,
      setDebounce, hostGuard_eq]

theorem handleClick_nextTimerId (env : Env) (s : DomState) (h : s.disableClick = false) :
    (handleClick env s).nextTimerId =
      if strContains env.hostname "studio" then s.nextTimerId
      else if s.btnActive then s.nextTimerId
      else s.nextTimerId + 1 := by
  cases hst : strContains env.hostname "studio" <;>
    simp [handleClick, h, hst, toggleContentClass, toggleAria, toggleButtonClass,
      setDebounce, hostGuard_eq]

theorem handleClick_intervalID (env : Env) (s : DomState) (h : s.disableClick = false) :
    (handleClick env s).intervalID =
      if strContains env.hostname "studio" then s.intervalID
      else if s.btnActive then s.intervalID
      else some s.nextTimerId := by
  cases hst : strContains env.hostname "studio" <;>
    simp [handleClick, h, hst, toggleContentClass, toggleAria, toggleButtonClass,
      setDebounce, hostGuard_eq]

theorem run_nil (env : Env) (s : DomState) : run env [] s = s := rfl

theorem run_cons (env : Env) (e : Event) (es : List Event) (s : DomState) :
    run env (e :: es) s = run env es (step env e s) := rfl

/-- Inductive timer invariant: no interval runs while the button is inactive,
at most one interval runs, the `intervalID` data slot names any running
interval, and on a Studio page no interval runs at all. -/
def Inv (env : Env) (s : DomState) : Prop :=
  (s.btnActive = false → s.activeTimers = []) ∧
  s.activeTimers.length ≤ 1 ∧
  (∀ t ∈ s.activeTimers, s.intervalID = some t) ∧
  (strContains env.hostname "studio" = true → s.activeTimers = [])

theorem inv_init (env : Env) (aria0 : Option String) : Inv env (initState aria0) := by
  simp [Inv, initState]

theorem inv_step (env : Env) (e : Event) (s : DomState) (h : Inv env s) :
    Inv env (step env e s) := by
  obtain ⟨h1, h2, h3, h4⟩ := h
  cases e with
  | debounceTimeout => exact ⟨h1, h2, h3, h4⟩
  | tick =>
      simp only [step]
      split
      · exact ⟨h1, h2, h3, h4⟩
      · exact ⟨h1, h2, h3, h4⟩
  | click =>
      show Inv env (handleClick env s)
      by_cases hd : s.disableClick = true
      · rw [handleClick_debounced env s hd]; exact ⟨h1, h2, h3, h4⟩
      have hd1 : s.disableClick = false := by simpa using hd
      have hA := handleClick_activeTimers env s hd1
      have hI := handleClick_intervalID env s hd1
      have hB := handleClick_btnActive env s hd1
      cases hst : strContains env.hostname "studio" with
      | true =>
          have hT : s.activeTimers = [] := h4 hst
          simp only [hst, if_true] at hA
          refine ⟨fun _ => by rw [hA, hT], by rw [hA, hT]; simp, ?_, fun _ => by rw [hA, hT]⟩
          intro t ht
          rw [hA, hT] at ht
          cases ht
      | false =>
          simp only [hst, Bool.false_eq_true, if_false] at hA hI
          cases hb : s.btnActive with
          | false =>
              have hT : s.activeTimers = [] := h1 hb
              simp only [hb, Bool.false_eq_true, if_false] at hA hI
              refine ⟨?_, ?_, ?_, ?_⟩
              · intro hbn
                rw [hB, hb] at hbn
                cases hbn
              · rw [hA, hT]; simp
              · intro t ht
                rw [hA, hT] at ht
                simp at ht
                rw [hI, ht]
              · intro hc
                rw [hst] at hc
                cases hc
          | true =>
              simp only [hb, if_true] at hA
              have hT : (handleClick env s).activeTimers = [] := by
                rw [hA]
                cases hi : s.intervalID with
                | none =>
                    cases hts : s.activeTimers with
                    | nil => rfl
                    | cons a as =>
                        have := h3 a (by rw [hts]; exact List.mem_cons_self a as)
                        rw [hi] at this
                        cases this
                | some t =>
                    cases hts : s.activeTimers with
                    | nil => rfl
                    | cons a as =>
                        have hlen : as = [] := by
                          rw [hts] at h2
                          simp at h2
                          exact h2
                        have hat : a = t := by
                          have := h3 a (by rw [hts]; exact List.mem_cons_self a as)
                          rw [hi] at this
                          exact (Option.some_injective Nat this).symm
                        rw [hlen, hat]
                        simp [List.filter]
              refine ⟨fun _ => hT, by rw [hT]; simp, ?_, fun _ => hT⟩
              intro t ht
              rw [hT] at ht
              cases ht

theorem inv_run (env : Env) (es : List Event) (s : DomState) (h : Inv env s) :
    Inv env (run env es s) := by
  induction es generalizing s with
  | nil => exact h
  | cons e es ih =>
      rw [run_cons]
      exact ih _ (inv_step env e s h)

theorem step_src_stable (env : Env) (e : Event) (s : DomState)
    (h : s.iframeSrc ≠ some "") : (step env e s).iframeSrc = s.iframeSrc := by
  cases e with
  | debounceTimeout => rfl
  | tick =>
      simp only [step]
      split
      · rfl
      · rfl
  | click =>
      show (handleClick env s).iframeSrc = s.iframeSrc
      by_cases hd : s.disableClick = true
      · rw [handleClick_debounced env s hd]
      have hd1 : s.disableClick = false := by simpa using hd
      rw [handleClick_iframeSrc env s hd1, if_neg h]

theorem run_src_stable (env : Env) (es : List Event) (s : DomState)
    (h : s.iframeSrc ≠ some "") : (run env es s).iframeSrc = s.iframeSrc := by
  induction es generalizing s with
  | nil => rfl
  | cons e es ih =>
      rw [run_cons]
      have hs := step_src_stable env e s h
      rw [ih (step env e s) (by rw [hs]; exact h), hs]

/-- Number of events in the sequence whose step changes the iframe's `src`
attribute (the observable count of `src` assignments that alter it). -/
def srcChanges (env : Env) : DomState → List Event → Nat
  | _, [] => 0
  | s, e :: es =>
      (if (step env e s).iframeSrc ≠ s.iframeSrc then 1 else 0) +
        srcChanges env (step env e s) es

theorem srcChanges_stable (env : Env) (es : List Event) (s : DomState)
    (h : s.iframeSrc ≠ some "") : srcChanges env s es = 0 := by
  induction es generalizing s with
  | nil => rfl
  | cons e es ih =>
      have hs := step_src_stable env e s h
      simp only [srcChanges, hs, ne_eq, not_true_eq_false, if_false, Nat.zero_add]
      exact ih _ (by rw [hs]; exact h)

theorem srcChanges_le_one (env : Env) (es : List Event) (s : DomState) :
    srcChanges env s es ≤ 1 := by
  induction es generalizing s with
  | nil => exact Nat.zero_le 1
  | cons e es ih =>
      by_cases hch : (step env e s).iframeSrc = s.iframeSrc
      · simp only [srcChanges, hch, ne_eq, not_true_eq_false, if_false, Nat.zero_add]
        exact ih _
      · have hnew : (step env e s).iframeSrc ≠ some "" := by
          by_cases hold : s.iframeSrc = some ""
          · intro hcontra
            exact hch (by rw [hcontra, hold])
          · exact absurd (step_src_stable env e s hold) hch
        simp only [srcChanges, hch, ne_eq, not_false_eq_true, if_pos]
        rw [srcChanges_stable env es _ hnew]

theorem step_aria_consistent (env : Env) (e : Event) (s : DomState)
    (h : s.btnActive = true ↔ s.ariaExpanded = some "true") :
    (step env e s).btnActive = true ↔ (step env e s).ariaExpanded = some "true" := by
  cases e with
  | debounceTimeout => exact h
  | tick =>
      simp only [step]
      split
      · exact h
      · exact h
  | click =>
      show (handleClick env s).btnActive = true ↔ (handleClick env s).ariaExpanded = some "true"
      by_cases hd : s.disableClick = true
      · rw [handleClick_debounced env s hd]; exact h
      have hd1 : s.disableClick = false := by simpa using hd
      rw [handleClick_btnActive env s hd1, handleClick_ariaExpanded env s hd1]
      cases hb : s.btnActive with
      | true =>
          have ha : s.ariaExpanded = some "true" := h.mp hb
          rw [ha, if_pos rfl]
          simp
      | false =>
          have ha : ¬s.ariaExpanded = some "true" := by
            intro hc
            have := h.mpr hc
            rw [hb] at this
            cases this
          rw [if_neg ha]
          simp

/-- A concrete state whose iframe has no `src` attribute at all and no
`aria-expanded` attribute, used for the C10 witness. -/
def sNoSrc : DomState := { initState none with iframeSrc := none }

/-- C1: a click while the `disable-click` debounce class is set is skipped
entirely — the state is unchanged, so no lazy-load, class toggle,
`aria-expanded` toggle, or timer start/stop happens — and hence two clicks
with no intervening debounce timeout run the lazy-load and toggle logic
exactly once. -/
theorem c1_debounced_click_skipped (env : Env) (s : DomState) :
    (s.disableClick = true → step env Event.click s = s) ∧
    (s.disableClick = false →
      run env [Event.click, Event.click] s = step env Event.click s) := by
  constructor
  · intro h
    exact handleClick_debounced env s h
  · intro h
    show step env Event.click (step env Event.click s) = step env Event.click s
    exact handleClick_debounced env _ (handleClick_disableClick env s h)

theorem c1_witness :
    (initState none).disableClick = false ∧
    run envEx [Event.click, Event.click] (initState none) =
      step envEx Event.click (initState none) :=
  ⟨rfl, (c1_debounced_click_skipped envEx (initState none)).2 rfl⟩

/-- C2: along every event sequence from the initial state, the height-polling
timer is never running while the button lacks the `review-button--active`
class, and at most one timer runs per button at any time. -/
theorem c2_timer_invariant (env : Env) (aria0 : Option String) (es : List Event) :
    ((run env es (initState aria0)).btnActive = false →
      (run env es (initState aria0)).activeTimers = []) ∧
    (run env es (initState aria0)).activeTimers.length ≤ 1 := by
  have h := inv_run env es (initState aria0) (inv_init env aria0)
  exact ⟨h.1, h.2.1⟩

theorem c2_witness :
    (run envEx [Event.click, Event.debounceTimeout, Event.click]
        (initState none)).btnActive = false ∧
    (run envEx [Event.click, Event.debounceTimeout, Event.click]
        (initState none)).activeTimers = [] ∧
    (run envEx [Event.click, Event.debounceTimeout, Event.click]
        (initState none)).activeTimers.length ≤ 1 :=
  ⟨by decide,
    (c2_timer_invariant envEx none [Event.click, Event.debounceTimeout, Event.click]).1
      (by decide),
    (c2_timer_invariant envEx none [Event.click, Event.debounceTimeout, Event.click]).2⟩

/-- C3: a processed click finding the `src` attribute present-and-empty
assigns it from `data-iframe-src`; along any event sequence the `src` value
changes at most once; and once `src` holds a non-empty value it is never
cleared or changed again. -/
theorem c3_lazy_load_once (env : Env) (s : DomState) (es : List Event) :
    srcChanges env s es ≤ 1 ∧
    (s.disableClick = false → s.iframeSrc = some "" →
      (step env Event.click s).iframeSrc = some env.dataIframeSrc) ∧
    (∀ v, v ≠ "" → s.iframeSrc = some v → (run env es s).iframeSrc = some v) := by
  refine ⟨srcChanges_le_one env es s, ?_, ?_⟩
  · intro hd h0
    show (handleClick env s).iframeSrc = some env.dataIframeSrc
    rw [handleClick_iframeSrc env s hd, if_pos h0]
  · intro v hv h0
    have hne : s.iframeSrc ≠ some "" := by
      rw [h0]
      intro hc
      exact hv (Option.some_injective String hc)
    rw [run_src_stable env es s hne]
    exact h0

theorem c3_witness :
    (initState none).disableClick = false ∧
    (initState none).iframeSrc = some "" ∧
    (step envEx Event.click (initState none)).iframeSrc = some envEx.dataIframeSrc ∧
    srcChanges envEx (initState none) [Event.click, Event.click] ≤ 1 ∧
    ("https://c.org/p1" : String) ≠ "" ∧
    (step envEx Event.click (initState none)).iframeSrc = some "https://c.org/p1" ∧
    (run envEx [Event.debounceTimeout, Event.click]
        (step envEx Event.click (initState none))).iframeSrc = some "https://c.org/p1" :=
  ⟨rfl, rfl,
    (c3_lazy_load_once envEx (initState none) []).2.1 rfl rfl,
    (c3_lazy_load_once envEx (initState none) [Event.click, Event.click]).1,
    by decide, by decide,
    (c3_lazy_load_once envEx (step envEx Event.click (initState none))
        [Event.debounceTimeout, Event.click]).2.2 "https://c.org/p1" (by decide) (by decide)⟩

/-- C4 counterexample: from a state where the two toggles disagree (button
inactive but `aria-expanded` already `"true"`), a processed click leaves them
disagreeing — the class is present while `aria-expanded` is `"false"` — so
"class present iff aria-expanded is true, for every initial state of the two"
is false. -/
theorem c4_counterexample :
    ¬(((step envEx Event.click (initState (some "true"))).btnActive = true) ↔
      (step envEx Event.click (initState (some "true"))).ariaExpanded = some "true") := by
  decide

/-- C4 (amended): after any click event, if the `review-button--active` class
and the `aria-expanded` attribute were consistent beforehand (class present
iff the attribute is `"true"`), they are consistent afterwards; a processed
click toggles both in lockstep. -/
theorem c4_aria_lockstep (env : Env) (e : Event) (s : DomState) :
    ((s.btnActive = true ↔ s.ariaExpanded = some "true") →
      ((step env e s).btnActive = true ↔ (step env e s).ariaExpanded = some "true")) ∧
    (s.disableClick = false →
      (step env Event.click s).btnActive = !s.btnActive ∧
      (step env Event.click s).ariaExpanded =
        (if s.ariaExpanded = some "true" then some "false" else some "true")) := by
  refine ⟨step_aria_consistent env e s, ?_⟩
  intro hd
  exact ⟨handleClick_btnActive env s hd, handleClick_ariaExpanded env s hd⟩

theorem c4_witness :
    ((initState (some "false")).btnActive = true ↔
      (initState (some "false")).ariaExpanded = some "true") ∧
    ((step envEx Event.click (initState (some "false"))).btnActive = true ↔
      (step envEx Event.click (initState (some "false"))).ariaExpanded = some "true") ∧
    (step envEx Event.click (initState (some "false"))).btnActive =
      !(initState (some "false")).btnActive :=
  ⟨by decide,
    (c4_aria_lockstep envEx Event.click (initState (some "false"))).1 (by decide),
    ((c4_aria_lockstep envEx Event.click (initState (some "false"))).2 rfl).1⟩

/-- C5: on a page whose hostname contains the substring `"studio"`, no event
sequence ever starts a polling timer — the `setInterval` branch is never
reached (the fresh-handle counter never moves) and the set of running timers
never changes. -/
theorem c5_studio_no_timer (env : Env) (s : DomState) (es : List Event)
    (h : strContains env.hostname "studio" = true) :
    (run env es s).nextTimerId = s.nextTimerId ∧
    (run env es s).activeTimers = s.activeTimers := by
  induction es generalizing s with
  | nil => exact ⟨rfl, rfl⟩
  | cons e es ih =>
      rw [run_cons]
      have hstep : (step env e s).nextTimerId = s.nextTimerId ∧
          (step env e s).activeTimers = s.activeTimers := by
        cases e with
        | debounceTimeout => exact ⟨rfl, rfl⟩
        | tick =>
            simp only [step]
            split
            · exact ⟨rfl, rfl⟩
            · exact ⟨rfl, rfl⟩
        | click =>
            by_cases hd : s.disableClick = true
            · show (handleClick env s).nextTimerId = s.nextTimerId ∧
                (handleClick env s).activeTimers = s.activeTimers
              rw [handleClick_debounced env s hd]
              exact ⟨rfl, rfl⟩
            · have hd1 : s.disableClick = false := by simpa using hd
              constructor
              · show (handleClick env s).nextTimerId = s.nextTimerId
                rw [handleClick_nextTimerId env s hd1]
                simp [h]
              · show (handleClick env s).activeTimers = s.activeTimers
                rw [handleClick_activeTimers env s hd1]
                simp [h]
      obtain ⟨ha, hb⟩ := ih (step env e s)
      exact ⟨ha.trans hstep.1, hb.trans hstep.2⟩

theorem c5_witness :
    strContains envStudio.hostname "studio" = true ∧
    (run envStudio [Event.click, Event.debounceTimeout, Event.click]
        (initState none)).nextTimerId = (initState none).nextTimerId ∧
    (run envStudio [Event.click, Event.debounceTimeout, Event.click]
        (initState none)).activeTimers = (initState none).activeTimers :=
  ⟨by decide,
    (c5_studio_no_timer envStudio (initState none)
        [Event.click, Event.debounceTimeout, Event.click] (by decide)).1,
    (c5_studio_no_timer envStudio (initState none)
        [Event.click, Event.debounceTimeout, Event.click] (by decide)).2⟩

/-- C6: on a non-Studio page, a processed click on an inactive button starts
exactly one polling timer (recorded in the `intervalID` data slot), and the
next processed click — button now active — stops exactly that timer; the
activate/deactivate pair creates exactly one interval handle and leaves no
interval running. -/
theorem c6_one_timer_per_cycle (env : Env) (s : DomState)
    (hst : strContains env.hostname "studio" = false)
    (hd : s.disableClick = false) (hb : s.btnActive = false)
    (ht : s.activeTimers = []) :
    (step env Event.click s).activeTimers = [s.nextTimerId] ∧
    (step env Event.click s).intervalID = some s.nextTimerId ∧
    (step env Event.click s).btnActive = true ∧
    (step env Event.click (step env Event.debounceTimeout
        (step env Event.click s))).activeTimers = [] ∧
    (step env Event.click (step env Event.debounceTimeout
        (step env Event.click s))).btnActive = false ∧
    (step env Event.click (step env Event.debounceTimeout
        (step env Event.click s))).nextTimerId = s.nextTimerId + 1 := by
  have hd2 : (step env Event.debounceTimeout (step env Event.click s)).disableClick
      = false := rfl
  have hb2 : (step env Event.debounceTimeout (step env Event.click s)).btnActive
      = true := by
    show (handleClick env s).btnActive = true
    rw [handleClick_btnActive env s hd, hb]
    rfl
  have hi2 : (step env Event.debounceTimeout (step env Event.click s)).intervalID
      = some s.nextTimerId := by
    show (handleClick env s).intervalID = some s.nextTimerId
    rw [handleClick_intervalID env s hd]
    simp [hst, hb]
  have ht2 : (step env Event.debounceTimeout (step env Event.click s)).activeTimers
      = [s.nextTimerId] := by
    show (handleClick env s).activeTimers = [s.nextTimerId]
    rw [handleClick_activeTimers env s hd]
    simp [hst, hb, ht]
  have hn2 : (step env Event.debounceTimeout (step env Event.click s)).nextTimerId
      = s.nextTimerId + 1 := by
    show (handleClick env s).nextTimerId = s.nextTimerId + 1
    rw [handleClick_nextTimerId env s hd]
    simp [hst, hb]
  refine ⟨ht2, hi2, hb2, ?_, ?_, ?_⟩
  · show (handleClick env (step env Event.debounceTimeout
        (step env Event.click s))).activeTimers = []
    rw [handleClick_activeTimers env _ hd2]
    simp [hst, hb2, hi2, ht2, List.filter]
  · show (handleClick env (step env Event.debounceTimeout
        (step env Event.click s))).btnActive = false
    rw [handleClick_btnActive env _ hd2, hb2]
    rfl
  · show (handleClick env (step env Event.debounceTimeout
        (step env Event.click s))).nextTimerId = s.nextTimerId + 1
    rw [handleClick_nextTimerId env _ hd2]
    simp [hst, hb2, hn2]

theorem c6_witness :
    strContains envEx.hostname "studio" = false ∧
    (initState none).disableClick = false ∧
    (initState none).btnActive = false ∧
    (initState none).activeTimers = [] ∧
    (step envEx Event.click (initState none)).activeTimers =
      [(initState none).nextTimerId] ∧
    (step envEx Event.click (step envEx Event.debounceTimeout
        (step envEx Event.click (initState none)))).activeTimers = [] ∧
    (step envEx Event.click (step envEx Event.debounceTimeout
        (step envEx Event.click (initState none)))).nextTimerId =
      (initState none).nextTimerId + 1 :=
  ⟨by decide, rfl, rfl, rfl,
    (c6_one_timer_per_cycle envEx (initState none) (by decide) rfl rfl rfl).1,
    (c6_one_timer_per_cycle envEx (initState none) (by decide) rfl rfl rfl).2.2.2.1,
    (c6_one_timer_per_cycle envEx (initState none) (by decide) rfl rfl rfl).2.2.2.2.2⟩

/-- C7: every processed click sets the `disable-click` debounce flag; the
scheduled timeout clears it; and the next click after the timeout is
processed normally (the toggle logic runs again). -/
theorem c7_debounce_lifecycle (env : Env) (s : DomState) (hd : s.disableClick = false) :
    (step env Event.click s).disableClick = true ∧
    (step env Event.debounceTimeout (step env Event.click s)).disableClick = false ∧
    (step env Event.click (step env Event.debounceTimeout
        (step env Event.click s))).btnActive = !(step env Event.click s).btnActive ∧
    (step env Event.click (step env Event.debounceTimeout
        (step env Event.click s))).contentActive =
      !(step env Event.click s).contentActive := by
  refine ⟨handleClick_disableClick env s hd, rfl, ?_, ?_⟩
  · show (handleClick env (step env Event.debounceTimeout
        (step env Event.click s))).btnActive = !(step env Event.click s).btnActive
    rw [handleClick_btnActive env _ rfl]
    rfl
  · show (handleClick env (step env Event.debounceTimeout
        (step env Event.click s))).contentActive = !(step env Event.click s).contentActive
    rw [handleClick_contentActive env _ rfl]
    rfl

theorem c7_witness :
    (initState none).disableClick = false ∧
    (step envEx Event.click (initState none)).disableClick = true ∧
    (step envEx Event.debounceTimeout
        (step envEx Event.click (initState none))).disableClick = false ∧
    (step envEx Event.click (step envEx Event.debounceTimeout
        (step envEx Event.click (initState none)))).btnActive =
      !(step envEx Event.click (initState none)).btnActive :=
  ⟨rfl,
    (c7_debounce_lifecycle envEx (initState none) rfl).1,
    (c7_debounce_lifecycle envEx (initState none) rfl).2.1,
    (c7_debounce_lifecycle envEx (initState none) rfl).2.2.1⟩

/-- C8: the 404-detection branch performs no state change on any path — for
every environment (iframe `innerHTML`, document title) and every state it
returns the state unchanged, so iframe `src`, classes, `aria-expanded` and
the timer state are left exactly as they were. -/
theorem c8_check404_inert (env : Env) (s : DomState) : check404 env s = s := by
  simp [check404]

/-- C9: every processed click toggles the sibling panel's
`review-content--active` class exactly once, and after any click on a state
where the panel class agrees with the button's active class, they still
agree. -/
theorem c9_content_toggle (env : Env) (s : DomState) :
    (s.disableClick = false →
      (step env Event.click s).contentActive = !s.contentActive) ∧
    (s.contentActive = s.btnActive →
      (step env Event.click s).contentActive = (step env Event.click s).btnActive) := by
  constructor
  · intro hd
    exact handleClick_contentActive env s hd
  · intro hcb
    by_cases hd : s.disableClick = true
    · show (handleClick env s).contentActive = (handleClick env s).btnActive
      rw [handleClick_debounced env s hd]
      exact hcb
    · have hd1 : s.disableClick = false := by simpa using hd
      show (handleClick env s).contentActive = (handleClick env s).btnActive
      rw [handleClick_contentActive env s hd1, handleClick_btnActive env s hd1, hcb]

theorem c9_witness :
    (initState none).disableClick = false ∧
    (step envEx Event.click (initState none)).contentActive =
      !(initState none).contentActive ∧
    (initState none).contentActive = (initState none).btnActive ∧
    (step envEx Event.click (initState none)).contentActive =
      (step envEx Event.click (initState none)).btnActive :=
  ⟨rfl,
    (c9_content_toggle envEx (initState none)).1 rfl,
    rfl,
    (c9_content_toggle envEx (initState none)).2 rfl⟩

/-- C10: the lazy-load test is a strict comparison with the empty string, so
an iframe whose `src` attribute is absent is never assigned a `src` by any
event sequence; and the `aria-expanded` ternary maps every value other than
the exact string `"true"` — including a missing attribute — to `"true"`. -/
theorem c10_strict_comparisons (env : Env) (s : DomState) (es : List Event) :
    (s.iframeSrc = none → (run env es s).iframeSrc = none) ∧
    (s.disableClick = false → s.ariaExpanded ≠ some "true" →
      (step env Event.click s).ariaExpanded = some "true") := by
  constructor
  · intro h0
    have hne : s.iframeSrc ≠ some "" := by
      rw [h0]
      intro hc
      exact Option.noConfusion hc
    rw [run_src_stable env es s hne, h0]
  · intro hd ha
    show (handleClick env s).ariaExpanded = some "true"
    rw [handleClick_ariaExpanded env s hd, if_neg ha]

theorem c10_witness :
    sNoSrc.iframeSrc = none ∧
    (run envEx [Event.click, Event.debounceTimeout, Event.click] sNoSrc).iframeSrc
      = none ∧
    sNoSrc.disableClick = false ∧
    sNoSrc.ariaExpanded ≠ some "true" ∧
    (step envEx Event.click sNoSrc).ariaExpanded = some "true" :=
  ⟨rfl,
    (c10_strict_comparisons envEx sNoSrc
        [Event.click, Event.debounceTimeout, Event.click]).1 rfl,
    rfl, by decide,
    (c10_strict_comparisons envEx sNoSrc [Event.click]).2 rfl (by decide)⟩

end ReviewXBlock
